import Mathlib

/-!
Shallow embedding of the frame-presentation loop and swapchain-recreation
state machine of the `universes` repository (src/main.rs, src/renderer.rs).

The GPU driver (vulkano) is modelled as an oracle: each event-loop
invocation receives a `TickInput` carrying the window event, the surface
dimensions and the driver's responses to the recreate / acquire /
execute / flush calls of that invocation.  GPU futures are represented
symbolically by the inductive type `Future`, so the exact dependency
chain a submission is built from is visible in the model.  Rust
`panic!` (including out-of-bounds `Vec` indexing) is modelled as
`Except.error`.
-/

namespace Universes

/-- Pixel dimensions of a surface / window (`winit::dpi::PhysicalSize`). -/
structure Extent where
  width : Nat
  height : Nat
deriving DecidableEq, Repr

/-- A swapchain image, identified by an id. -/
abbrev Image := Nat

/-- A framebuffer wraps (a view of) one swapchain image
(renderer.rs, `get_frame_buffers`). -/
structure Framebuffer where
  image : Image
deriving DecidableEq, Repr

/-- A graphics pipeline; the only datum the loop varies between pipeline
builds is the viewport dimensions baked into it (renderer.rs, `get_pipeline`,
which receives `viewport` and fixed shader/render-pass arguments). -/
structure Pipeline where
  viewportDimensions : Extent
deriving DecidableEq, Repr

/-- A prerecorded primary command buffer: records a draw into one
framebuffer with one pipeline bound (renderer.rs, `get_command_buffers`). -/
structure CommandBuffer where
  framebuffer : Framebuffer
  pipeline : Pipeline
deriving DecidableEq, Repr

/-- renderer.rs `get_frame_buffers`: one framebuffer per swapchain image. -/
def get_frame_buffers (images : List Image) : List Framebuffer :=
  images.map Framebuffer.mk

/-- renderer.rs `get_pipeline`: builds a pipeline for the given viewport
(device, shaders and render pass are fixed for the whole run). -/
def get_pipeline (viewport : Extent) : Pipeline :=
  ⟨viewport⟩

/-- renderer.rs `get_command_buffers`: one command buffer per framebuffer,
each binding the given pipeline. -/
def get_command_buffers (pipeline : Pipeline) (framebuffers : List Framebuffer) :
    List CommandBuffer :=
  framebuffers.map fun fb => ⟨fb, pipeline⟩

/-- Mirror of `vulkano::swapchain::SwapchainCreationError`, restricted to the cases
`recreate_swapchain` distinguishes. -/
inductive SwapchainCreationError where
  | imageExtentNotSupported
  | otherError
deriving DecidableEq, Repr

/-- The driver's response to `Swapchain::recreate`: either a new swapchain
(with its images) or a creation error. -/
inductive RecreateResponse where
  | ok (images : List Image)
  | err (e : SwapchainCreationError)
deriving DecidableEq, Repr

/-- A swapchain generation as produced by a (re)creation: its image extent
and its images. -/
structure SwapchainGen where
  extent : Extent
  images : List Image
deriving DecidableEq, Repr

/-- renderer.rs `recreate_swapchain` (lines 242-261): asks the driver to
recreate the swapchain at the window's current inner size.
`ImageExtentNotSupported` is swallowed by returning `none` (skip);
any other creation error panics, modelled as `Except.error`. -/
def recreate_swapchain (newDimensions : Extent) (driver : RecreateResponse) :
    Except String (Option (SwapchainGen × List Framebuffer)) :=
  match driver with
  | .ok images =>
      .ok (some (⟨newDimensions, images⟩, get_frame_buffers images))
  | .err .imageExtentNotSupported => .ok none
  | .err .otherError => .error "Failed to recreate swapchain"

/-- Symbolic `GpuFuture` expressions built by the frame loop. -/
inductive Future where
  /-- The `sync::now(device)` baseline (after `cleanup_finished`), boxed: the
  already-resolved baseline. -/
  | now
  /-- The `acquire_future` returned by `acquire_next_image` on a given
  loop iteration (iterations are numbered by the ghost counter `tick`). -/
  | acquired (tick : Nat)
  /-- The join `a.join(b)` of two futures. -/
  | join (a b : Future)
  /-- Chaining `.then_execute(queue, command_buffers[commandIndex])`. -/
  | execute (pred : Future) (commandIndex : Nat)
  /-- Chaining `.then_swapchain_present(queue, swapchain, imageIndex)`. -/
  | present (pred : Future) (imageIndex : Nat)
  /-- Result of `.then_signal_fence_and_flush()`: the stored `FenceSignalFuture`. -/
  | fenceSignalFuture (pred : Future)
deriving DecidableEq, Repr

/-- Window-system events as dispatched by the loop (main.rs lines 102-118).
`closeRequested` only sets the control flow to `Exit`; the body still runs. -/
inductive LoopEvent where
  | closeRequested
  | resized
  | redrawEventsCleared
  | otherEvent
deriving DecidableEq, Repr

/-- The driver's response to `acquire_next_image` (main.rs lines 148-156). -/
inductive AcquireResult where
  | ok (imageI : Nat) (suboptimal : Bool)
  | outOfDate
  | otherError
deriving DecidableEq, Repr

/-- Mirror of `vulkano::sync::FlushError`, restricted to the cases the loop
distinguishes (main.rs lines 188-198). -/
inductive FlushError where
  | outOfDate
  | otherError
deriving DecidableEq, Repr

/-- Oracle input for one event-loop invocation: the event delivered, the
window's inner size during this invocation, and the driver's responses. -/
structure TickInput where
  event : LoopEvent
  innerSize : Extent
  recreate : RecreateResponse
  acquire : AcquireResult
  execOk : Bool
  flush : Option FlushError
deriving DecidableEq, Repr

/-- Observable actions emitted during one event-loop invocation, in order. -/
inductive Action where
  /-- The rebuild block ran (`recreate_swapchain` was invoked). -/
  | recreateAttempt
  /-- Emitted when `recreate_swapchain` returned `None`: the rebuild was skipped. -/
  | recreateSkipped
  /-- A new swapchain generation with the given images was installed. -/
  | recreateDone (images : List Image)
  /-- A `fence.wait(None)` call on the acquired slot's stored fence. -/
  | waitFence (f : Future)
  /-- Emitted when `then_execute` succeeded: this future was submitted for image `imageI`. -/
  | submit (f : Future) (imageI : Nat)
  /-- A presentation of image `imageI` was chained. -/
  | presentRequest (imageI : Nat)
  /-- A new fence was stored in slot `imageI`. -/
  | storeFence (imageI : Nat)
  /-- A diagnostic line was printed. -/
  | log (msg : String)
deriving DecidableEq, Repr

/-- The mutable state of the frame loop (locals of `main` captured by the
event-loop closure, main.rs lines 44-97), plus two ghost fields:
`inflight` counts, per fence slot, the submissions that were successfully
flushed with a stored fence and not yet waited on; `tick` numbers the loop
iterations to give each acquire future a symbolic identity. -/
structure LoopState where
  /-- The `window_resized` local (the Resize Flag). -/
  windowResized : Bool
  /-- Extent of `state.swapchain`. -/
  swapchainExtent : Extent
  /-- The `state.swapchain_images` vector. -/
  swapchainImages : List Image
  /-- The `framebuffers` local. -/
  framebuffers : List Framebuffer
  /-- The mutable `viewport` local (its `dimensions` field). -/
  viewport : Extent
  /-- The `command_buffers` local. -/
  commandBuffers : List CommandBuffer
  /-- The `fences` vector: one `Option<Arc<FenceSignalFuture>>` per slot. -/
  fences : List (Option Future)
  /-- The `previous_fence_i` local. -/
  previousFenceI : Nat
  /-- Ghost: in-flight fenced submissions per fence slot. -/
  inflight : List Nat
  /-- Ghost: iteration counter. -/
  tick : Nat
deriving DecidableEq, Repr

/-- main.rs lines 93-97: loop state just before `event_loop.run`, given the
initial swapchain images and window extent produced by `init_vulkan`.
`fences` is sized by `frames_in_flight = state.swapchain_images.len()`. -/
def initialState (images : List Image) (extent : Extent) : LoopState :=
  let framebuffers := get_frame_buffers images
  { windowResized := false
    swapchainExtent := extent
    swapchainImages := images
    framebuffers := framebuffers
    viewport := extent
    commandBuffers := get_command_buffers (get_pipeline extent) framebuffers
    fences := List.replicate images.length none
    previousFenceI := 0
    inflight := List.replicate images.length 0
    tick := 0 }

/-- main.rs lines 102-118: event dispatch. Only `Resized` changes loop
state; `CloseRequested` sets control flow to `Exit` (and the body still
falls through); other events are ignored. -/
def eventStep (s : LoopState) (event : LoopEvent) : LoopState :=
  match event with
  | .resized => { s with windowResized := true }
  | _ => s

/-- main.rs lines 120-144: the rebuild block. If the Resize Flag is set,
clear it, call `recreate_swapchain` (installing the new generation when it
returns `Some`), then unconditionally rebuild the viewport, pipeline and
command buffers from the window's current inner size and the (possibly
unchanged) framebuffers. -/
def rebuildBlock (s : LoopState) (innerSize : Extent) (driver : RecreateResponse) :
    Except String (LoopState × List Action) :=
  if s.windowResized then
    let s := { s with windowResized := false }
    match recreate_swapchain innerSize driver with
    | .error msg => .error msg
    | .ok opt =>
      let (s, acts) :=
        match opt with
        | some (gen, newFramebuffers) =>
            ({ s with swapchainExtent := gen.extent
                      swapchainImages := gen.images
                      framebuffers := newFramebuffers },
             [Action.recreateAttempt, Action.recreateDone gen.images])
        | none => (s, [Action.recreateAttempt, Action.recreateSkipped])
      .ok ({ s with viewport := innerSize
                    commandBuffers :=
                      get_command_buffers (get_pipeline innerSize) s.framebuffers },
           acts)
  else
    .ok (s, [])

/-- main.rs lines 162-164: if the acquired slot holds a stored fence,
wait on it.  Ghost effect: the slot's in-flight count drops to zero. -/
def waitOnSlot (s : LoopState) (imageI : Nat) (slotFence : Option Future) :
    LoopState × List Action :=
  match slotFence with
  | some f => ({ s with inflight := s.inflight.set imageI 0 }, [Action.waitFence f])
  | none => (s, [])

/-- main.rs lines 166-175: the dependency the next submission chains
from — the previous slot's stored fence, or the already-resolved
`sync::now` baseline (after `cleanup_finished`) when the slot is empty. -/
def previousFuture (prevSlot : Option Future) : Future :=
  match prevSlot with
  | none => .now
  | some fence => fence

/-- main.rs lines 183-204: chain `then_swapchain_present` and
`then_signal_fence_and_flush` onto the submitted future, store the outcome
in the acquired slot (`fences[image_i]`), and advance `previous_fence_i`.
Ghost effect: a successful flush adds one in-flight submission for the slot. -/
def settleFlush (s : LoopState) (imageI : Nat) (submitted : Future)
    (flush : Option FlushError) : LoopState × List Action :=
  let presented := Future.present submitted imageI
  match flush with
  | none =>
      ({ s with fences := s.fences.set imageI (some (.fenceSignalFuture presented))
                inflight := s.inflight.set imageI (s.inflight.getD imageI 0 + 1)
                previousFenceI := imageI
                tick := s.tick + 1 },
       [Action.presentRequest imageI, Action.storeFence imageI])
  | some .outOfDate =>
      ({ s with windowResized := true
                fences := s.fences.set imageI none
                previousFenceI := imageI
                tick := s.tick + 1 },
       [Action.presentRequest imageI])
  | some .otherError =>
      ({ s with fences := s.fences.set imageI none
                previousFenceI := imageI
                tick := s.tick + 1 },
       [Action.presentRequest imageI, Action.log "Failed to flush future"])

/-- main.rs lines 162-204, for an acquired image index `imageI`:
back-pressure wait, dependency chaining, submit, present, fence store and
bookkeeping.  Out-of-bounds `Vec` indexing (a Rust panic) is
`Except.error`. -/
def frameBody (s : LoopState) (inp : TickInput) (imageI : Nat) :
    Except String (LoopState × List Action) :=
  match s.fences[imageI]? with
  | none => .error "index out of bounds: fences"
  | some slotFence =>
    let (s, waitActions) := waitOnSlot s imageI slotFence
    match s.fences[s.previousFenceI]? with
    | none => .error "index out of bounds: fences"
    | some prevSlot =>
      match s.commandBuffers[imageI]? with
      | none => .error "index out of bounds: command_buffers"
      | some _cb =>
        if inp.execOk then
          let submitted :=
            Future.execute (.join (previousFuture prevSlot) (.acquired s.tick)) imageI
          let (s, flushActions) := settleFlush s imageI submitted inp.flush
          .ok (s, waitActions ++ [Action.submit submitted imageI] ++ flushActions)
        else
          .ok ({ s with windowResized := true, tick := s.tick + 1 }, waitActions)

/-- main.rs lines 148-204: `acquire_next_image` dispatch (lines 148-160),
then the rest of the frame (`frameBody`).  A suboptimal acquisition
proceeds but raises the Resize Flag first. -/
def frameStep (s : LoopState) (inp : TickInput) : Except String (LoopState × List Action) :=
  match inp.acquire with
  | .outOfDate => .ok ({ s with windowResized := true }, [])
  | .otherError => .ok (s, [])
  | .ok imageI suboptimal =>
    frameBody (if suboptimal then { s with windowResized := true } else s) inp imageI

/-- One invocation of the event-loop closure (main.rs lines 99-205):
event dispatch, rebuild block, then the frame step. -/
def tick (s : LoopState) (inp : TickInput) : Except String (LoopState × List Action) :=
  match rebuildBlock (eventStep s inp.event) inp.innerSize inp.recreate with
  | .error msg => .error msg
  | .ok (s1, acts1) =>
    match frameStep s1 inp with
    | .error msg => .error msg
    | .ok (s2, acts2) => .ok (s2, acts1 ++ acts2)

/-- Post-state of a tick, for stating theorems about successful ticks
(on a panic it returns the pre-state; statements pair it with `isOk`). -/
def stepOutcome (s : LoopState) (inp : TickInput) : LoopState :=
  match tick s inp with
  | .ok (s', _) => s'
  | .error _ => s

/-- Actions of a tick, for stating theorems about successful ticks. -/
def stepActs (s : LoopState) (inp : TickInput) : List Action :=
  match tick s inp with
  | .ok (_, acts) => acts
  | .error _ => []

/-- States reachable by the frame loop from a given initial state. -/
inductive Reachable (init : LoopState) : LoopState → Prop where
  | refl : Reachable init init
  | step {s s' : LoopState} {inp : TickInput} {acts : List Action} :
      Reachable init s → tick s inp = .ok (s', acts) → Reachable init s'

/-- Action `a` occurs strictly before `b` in the list `l`. -/
def precedes (a b : Action) (l : List Action) : Prop :=
  ∃ l₁ l₂, l = l₁ ++ l₂ ∧ a ∈ l₁ ∧ b ∈ l₂

/-- The loop's structural invariant relative to the initial image count
`n`: the fences vector and the ghost in-flight vector keep their initial
length, at most one fenced submission is in flight per slot, a slot with
no stored fence has nothing in flight, and framebuffers / command buffers
are consistent with the current swapchain generation. -/
def Inv (n : Nat) (s : LoopState) : Prop :=
  s.fences.length = n ∧ s.inflight.length = n ∧
  (∀ i, s.inflight.getD i 0 ≤ 1) ∧
  (∀ i, s.fences.getD i none = none → s.inflight.getD i 0 = 0) ∧
  s.framebuffers.length = s.swapchainImages.length ∧
  s.commandBuffers.length = s.framebuffers.length

/-- A 2-image demo start state for concrete runs of the loop. -/
def demoInit : LoopState := initialState [0, 1] ⟨800, 600⟩

/-- A tick that acquires image 0 and submits and flushes successfully. -/
def submitInput : TickInput :=
  { event := .otherEvent, innerSize := ⟨800, 600⟩, recreate := .ok [0, 1]
    acquire := .ok 0 false, execOk := true, flush := none }

def demoS1 : LoopState := stepOutcome demoInit submitInput

def demoS1Acts : List Action := stepActs demoInit submitInput

/-- Reachability by ticks whose recreate response is always the
unsupported-extent error: models any number of repeated rebuild requests
while the surface extent is degenerate. -/
inductive DegenerateReach (init : LoopState) : LoopState → Prop where
  | refl : DegenerateReach init init
  | step {s s' : LoopState} {inp : TickInput} {acts : List Action} :
      DegenerateReach init s →
      inp.recreate = .err .imageExtentNotSupported →
      tick s inp = .ok (s', acts) → DegenerateReach init s'

/-- A tick that fails acquisition with a non-out-of-date error. -/
def acquireFailInput : TickInput :=
  { event := .otherEvent, innerSize := ⟨800, 600⟩, recreate := .ok [0, 1]
    acquire := .otherError, execOk := true, flush := none }

/-- A resize tick whose driver returns a three-image swapchain. -/
def growInput : TickInput :=
  { event := .resized, innerSize := ⟨1024, 768⟩, recreate := .ok [0, 1, 2]
    acquire := .otherError, execOk := true, flush := none }

def demoGrown : LoopState := stepOutcome demoInit growInput

/-- A resize tick while the surface extent is degenerate: the driver
reports the extent unsupported. -/
def degenerateInput : TickInput :=
  { event := .resized, innerSize := ⟨0, 0⟩
    recreate := .err .imageExtentNotSupported
    acquire := .otherError, execOk := true, flush := none }

def demoDegenerate : LoopState := stepOutcome demoInit degenerateInput

def demoFlagged : LoopState := { demoInit with windowResized := true }

/-- A tick whose acquisition reports out-of-date. -/
def outOfDateInput : TickInput :=
  { event := .otherEvent, innerSize := ⟨800, 600⟩, recreate := .ok [0, 1]
    acquire := .outOfDate, execOk := true, flush := none }

def demoOutOfDate : LoopState := stepOutcome demoInit outOfDateInput

/-- A tick whose `then_execute` fails. -/
def execFailInput : TickInput :=
  { event := .otherEvent, innerSize := ⟨800, 600⟩, recreate := .ok [0, 1]
    acquire := .ok 0 false, execOk := false, flush := none }

def demoExecFail : LoopState := stepOutcome demoInit execFailInput

/-- A tick that submits successfully but whose flush is out-of-date. -/
def flushFailInput : TickInput :=
  { event := .otherEvent, innerSize := ⟨800, 600⟩, recreate := .ok [0, 1]
    acquire := .ok 0 false, execOk := true, flush := some .outOfDate }

def demoFlushFail : LoopState := stepOutcome demoInit flushFailInput

theorem getD_of_getElem?_some {α} {l : List α} {i : Nat} {x : α} (d : α)
    (h : l[i]? = some x) : l.getD i d = x := by
  simp [List.getD]
  simp [h]

theorem lt_length_of_getElem?_some {α} {l : List α} {i : Nat} {x : α}
    (h : l[i]? = some x) : i < l.length := by
  by_contra hge
  rw [List.getElem?_eq_none (by omega)] at h
  cases h

theorem getD_set_self {α} (l : List α) (i : Nat) (x d : α) (h : i < l.length) :
    (l.set i x).getD i d = x := by
  rw [List.getD_eq_getElem _ _ (by simpa using h)]
  simp [h]

theorem getD_set_ne {α} (l : List α) (i j : Nat) (x d : α) (h : i ≠ j) :
    (l.set i x).getD j d = l.getD j d := by
  rcases Nat.lt_or_ge j l.length with hj | hj
  · rw [List.getD_eq_getElem _ _ (by simpa using hj), List.getD_eq_getElem _ _ hj]
    simp [List.getElem_set, h]
  · rw [List.getD_eq_default _ _ (by simpa using hj), List.getD_eq_default _ _ hj]

theorem getD_set_default {α} (l : List α) (i : Nat) (x d : α) (h : x = d) :
    (l.set i x).getD i d = d := by
  rcases Nat.lt_or_ge i l.length with hi | hi
  · rw [getD_set_self _ _ _ _ hi, h]
  · rw [List.getD_eq_default _ _ (by simpa using hi)]

theorem getD_set_le_nat (l : List Nat) (i x : Nat) :
    (l.set i x).getD i 0 ≤ x := by
  rcases Nat.lt_or_ge i l.length with hi | hi
  · rw [getD_set_self _ _ _ _ hi]
  · rw [List.getD_eq_default _ _ (by simpa using hi)]
    exact Nat.zero_le x

theorem getD_replicate {α} (n i : Nat) (d : α) :
    (List.replicate n d).getD i d = d := by
  rcases Nat.lt_or_ge i n with hi | hi
  · rw [List.getD_eq_getElem _ _ (by simpa using hi)]
    simp
  · rw [List.getD_eq_default _ _ (by simpa using hi)]

theorem eventStep_fields (s : LoopState) (e : LoopEvent) :
    (eventStep s e).fences = s.fences ∧ (eventStep s e).inflight = s.inflight ∧
    (eventStep s e).previousFenceI = s.previousFenceI ∧
    (eventStep s e).tick = s.tick ∧
    (eventStep s e).swapchainExtent = s.swapchainExtent ∧
    (eventStep s e).swapchainImages = s.swapchainImages ∧
    (eventStep s e).framebuffers = s.framebuffers ∧
    (eventStep s e).commandBuffers = s.commandBuffers ∧
    (eventStep s e).viewport = s.viewport := by
  cases e <;> simp [eventStep]

theorem rebuildBlock_ghost {s s' : LoopState} {dims : Extent}
    {r : RecreateResponse} {acts : List Action}
    (h : rebuildBlock s dims r = .ok (s', acts)) :
    s'.fences = s.fences ∧ s'.inflight = s.inflight ∧
    s'.previousFenceI = s.previousFenceI ∧ s'.tick = s.tick := by
  by_cases hw : s.windowResized
  · rcases r with imgs | e
    · simp [rebuildBlock, recreate_swapchain, hw] at h
      obtain ⟨hs, -⟩ := h
      subst hs
      simp
    · rcases e
      · simp [rebuildBlock, recreate_swapchain, hw] at h
        obtain ⟨hs, -⟩ := h
        subst hs
        simp
      · simp [rebuildBlock, recreate_swapchain, hw] at h
  · simp [rebuildBlock, hw] at h
    obtain ⟨hs, -⟩ := h
    subst hs
    simp

theorem rebuildBlock_acts {s s' : LoopState} {dims : Extent}
    {r : RecreateResponse} {acts : List Action}
    (h : rebuildBlock s dims r = .ok (s', acts)) :
    acts = [] ∨ (∃ imgs, acts = [Action.recreateAttempt, Action.recreateDone imgs]) ∨
    acts = [Action.recreateAttempt, Action.recreateSkipped] := by
  by_cases hw : s.windowResized
  · rcases r with imgs | e
    · simp [rebuildBlock, recreate_swapchain, hw] at h
      exact Or.inr (Or.inl ⟨imgs, h.2.symm⟩)
    · rcases e
      · simp [rebuildBlock, recreate_swapchain, hw] at h
        exact Or.inr (Or.inr h.2.symm)
      · simp [rebuildBlock, recreate_swapchain, hw] at h
  · simp [rebuildBlock, hw] at h
    exact Or.inl h.2

theorem rebuildBlock_inv {n : Nat} {s s' : LoopState} {dims : Extent}
    {r : RecreateResponse} {acts : List Action} (hI : Inv n s)
    (h : rebuildBlock s dims r = .ok (s', acts)) : Inv n s' := by
  obtain ⟨h1, h2, h3, h4, h5, h6⟩ := hI
  by_cases hw : s.windowResized
  · rcases r with imgs | e
    · simp [rebuildBlock, recreate_swapchain, hw] at h
      obtain ⟨hs, -⟩ := h
      subst hs
      refine ⟨h1, h2, h3, h4, ?_, ?_⟩ <;>
        simp [get_frame_buffers, get_command_buffers]
    · rcases e
      · simp [rebuildBlock, recreate_swapchain, hw] at h
        obtain ⟨hs, -⟩ := h
        subst hs
        exact ⟨h1, h2, h3, h4, h5, by simp [get_command_buffers, h6]⟩
      · simp [rebuildBlock, recreate_swapchain, hw] at h
  · simp [rebuildBlock, hw] at h
    obtain ⟨hs, -⟩ := h
    subst hs
    exact ⟨h1, h2, h3, h4, h5, h6⟩

theorem waitOnSlot_inv {n : Nat} {s : LoopState} {imageI : Nat}
    {slotFence : Option Future} {sw : LoopState} {wActs : List Action}
    (hI : Inv n s) (hF : s.fences[imageI]? = some slotFence)
    (hw : waitOnSlot s imageI slotFence = (sw, wActs)) :
    Inv n sw ∧ sw.inflight.getD imageI 0 = 0 ∧ sw.fences = s.fences ∧
    sw.previousFenceI = s.previousFenceI ∧ sw.commandBuffers = s.commandBuffers ∧
    sw.tick = s.tick ∧ sw.windowResized = s.windowResized := by
  obtain ⟨h1, h2, h3, h4, h5, h6⟩ := hI
  rcases slotFence with _ | f
  · simp only [waitOnSlot] at hw
    injection hw with e1 e2
    subst e1
    exact ⟨⟨h1, h2, h3, h4, h5, h6⟩,
      h4 imageI (getD_of_getElem?_some none hF), rfl, rfl, rfl, rfl, rfl⟩
  · simp only [waitOnSlot] at hw
    injection hw with e1 e2
    subst e1
    refine ⟨⟨h1, ?_, ?_, ?_, h5, h6⟩, ?_, rfl, rfl, rfl, rfl, rfl⟩
    · show (s.inflight.set imageI 0).length = n
      rw [List.length_set]
      exact h2
    · intro i
      show (s.inflight.set imageI 0).getD i 0 ≤ 1
      rcases Decidable.em (imageI = i) with rfl | hne
      · rw [getD_set_default _ _ _ _ rfl]
        exact Nat.zero_le 1
      · rw [getD_set_ne _ _ _ _ _ hne]
        exact h3 i
    · intro i hfi
      show (s.inflight.set imageI 0).getD i 0 = 0
      rcases Decidable.em (imageI = i) with rfl | hne
      · exact getD_set_default _ _ _ _ rfl
      · rw [getD_set_ne _ _ _ _ _ hne]
        exact h4 i hfi
    · show (s.inflight.set imageI 0).getD imageI 0 = 0
      exact getD_set_default _ _ _ _ rfl

theorem settleFlush_inv {n : Nat} {t : LoopState} {imageI : Nat}
    {submitted : Future} {flush : Option FlushError} {st : LoopState}
    {fActs : List Action} (hI : Inv n t) (hlt : imageI < t.fences.length)
    (hz : t.inflight.getD imageI 0 = 0)
    (hsf : settleFlush t imageI submitted flush = (st, fActs)) :
    Inv n st := by
  obtain ⟨h1, h2, h3, h4, h5, h6⟩ := hI
  rcases flush with _ | e
  · simp only [settleFlush] at hsf
    injection hsf with e1 e2
    subst e1
    refine ⟨by rw [List.length_set]; exact h1, by rw [List.length_set]; exact h2, ?_, ?_, h5, h6⟩
    · intro i
      rcases Decidable.em (imageI = i) with rfl | hne
      · calc (t.inflight.set imageI (t.inflight.getD imageI 0 + 1)).getD imageI 0
            ≤ t.inflight.getD imageI 0 + 1 := getD_set_le_nat _ _ _
          _ ≤ 1 := by rw [hz]
      · rw [getD_set_ne _ _ _ _ _ hne]
        exact h3 i
    · intro i hfi
      rcases Decidable.em (imageI = i) with rfl | hne
      · exfalso
        rw [getD_set_self _ _ _ _ hlt] at hfi
        exact Option.some_ne_none _ hfi
      · rw [getD_set_ne _ _ _ _ _ hne] at hfi
        rw [getD_set_ne _ _ _ _ _ hne]
        exact h4 i hfi
  · have main : ∀ u : LoopState, u.fences = t.fences.set imageI none →
        u.inflight = t.inflight → u.framebuffers = t.framebuffers →
        u.swapchainImages = t.swapchainImages → u.commandBuffers = t.commandBuffers →
        Inv n u := by
      intro u hu1 hu2 hu3 hu4 hu5
      refine ⟨by rw [hu1, List.length_set]; exact h1, by rw [hu2]; exact h2,
        fun i => by rw [hu2]; exact h3 i,
        ?_, by rw [hu3, hu4]; exact h5, by rw [hu5, hu3]; exact h6⟩
      intro i hfi
      rw [hu2]
      rcases Decidable.em (imageI = i) with rfl | hne
      · exact hz
      · rw [hu1, getD_set_ne _ _ _ _ _ hne] at hfi
        exact h4 i hfi
    rcases e <;> simp only [settleFlush] at hsf <;> injection hsf with e1 e2 <;>
      subst e1 <;> exact main _ rfl rfl rfl rfl rfl

theorem frameBody_inv {n : Nat} {t s' : LoopState} {inp : TickInput}
    {imageI : Nat} {acts : List Action} (hI : Inv n t)
    (h : frameBody t inp imageI = .ok (s', acts)) : Inv n s' := by
  rcases hF : t.fences[imageI]? with _ | slotFence
  · simp [frameBody, hF] at h
  · have hltF : imageI < t.fences.length := lt_length_of_getElem?_some hF
    rcases hw : waitOnSlot t imageI slotFence with ⟨sw, wActs⟩
    obtain ⟨hIw, hz, hwf, hwp, hwc, hwt, hwr⟩ := waitOnSlot_inv hI hF hw
    rcases hP : t.fences[t.previousFenceI]? with _ | prevSlot
    · have hP' : sw.fences[sw.previousFenceI]? = none := by rw [hwf, hwp]; exact hP
      simp [frameBody, hF, hw, hP'] at h
    · have hP' : sw.fences[sw.previousFenceI]? = some prevSlot := by
        rw [hwf, hwp]; exact hP
      rcases hC : t.commandBuffers[imageI]? with _ | cb
      · have hC' : sw.commandBuffers[imageI]? = none := by rw [hwc]; exact hC
        simp [frameBody, hF, hw, hP', hC'] at h
      · have hC' : sw.commandBuffers[imageI]? = some cb := by rw [hwc]; exact hC
        rcases hE : inp.execOk
        case false =>
          simp [frameBody, hF, hw, hP', hC', hE] at h
          obtain ⟨hs, -⟩ := h
          subst hs
          obtain ⟨g1, g2, g3, g4, g5, g6⟩ := hIw
          exact ⟨g1, g2, g3, g4, g5, g6⟩
        case true =>
          rcases hsf : settleFlush sw imageI
              (Future.execute
                ((previousFuture prevSlot).join (Future.acquired sw.tick)) imageI)
              inp.flush with ⟨st, fActs⟩
          have hIs := settleFlush_inv hIw (by rw [hwf]; exact hltF) hz hsf
          simp [frameBody, hF, hw, hP', hC', hE, hsf] at h
          obtain ⟨hs, -⟩ := h
          subst hs
          exact hIs

theorem frameStep_inv {n : Nat} {s s' : LoopState} {inp : TickInput}
    {acts : List Action} (hI : Inv n s)
    (h : frameStep s inp = .ok (s', acts)) : Inv n s' := by
  obtain ⟨h1, h2, h3, h4, h5, h6⟩ := hI
  rcases hA : inp.acquire with ⟨imageI, suboptimal⟩ | _ | _
  · rcases suboptimal
    case false =>
      simp [frameStep, hA] at h
      exact frameBody_inv ⟨h1, h2, h3, h4, h5, h6⟩ h
    case true =>
      simp [frameStep, hA] at h
      exact frameBody_inv (t := { s with windowResized := true })
        ⟨h1, h2, h3, h4, h5, h6⟩ h
  · simp [frameStep, hA] at h
    obtain ⟨hs, -⟩ := h
    subst hs
    exact ⟨h1, h2, h3, h4, h5, h6⟩
  · simp [frameStep, hA] at h
    obtain ⟨hs, -⟩ := h
    subst hs
    exact ⟨h1, h2, h3, h4, h5, h6⟩

theorem eventStep_inv {n : Nat} {s : LoopState} (hI : Inv n s) (e : LoopEvent) :
    Inv n (eventStep s e) := by
  cases e <;> exact hI

theorem tick_inv {n : Nat} {s s' : LoopState} {inp : TickInput}
    {acts : List Action} (hI : Inv n s)
    (h : tick s inp = .ok (s', acts)) : Inv n s' := by
  rcases hr : rebuildBlock (eventStep s inp.event) inp.innerSize inp.recreate
    with msg | ⟨s1, acts1⟩
  · simp [tick, hr] at h
  · rcases hf : frameStep s1 inp with msg | ⟨s2, acts2⟩
    · simp [tick, hr, hf] at h
    · simp [tick, hr, hf] at h
      obtain ⟨hs, -⟩ := h
      subst hs
      exact frameStep_inv (rebuildBlock_inv (eventStep_inv hI inp.event) hr) hf

theorem initialState_inv (images : List Image) (extent : Extent) :
    Inv images.length (initialState images extent) := by
  refine ⟨by simp [initialState], by simp [initialState], ?_, ?_, ?_, ?_⟩
  · intro i
    show (List.replicate images.length (0 : Nat)).getD i 0 ≤ 1
    rw [getD_replicate]
    exact Nat.zero_le 1
  · intro i _
    show (List.replicate images.length (0 : Nat)).getD i 0 = 0
    exact getD_replicate _ _ _
  · simp [initialState, get_frame_buffers]
  · simp [initialState, get_command_buffers]

theorem reachable_inv {images : List Image} {extent : Extent} {s : LoopState}
    (h : Reachable (initialState images extent) s) :
    Inv images.length s := by
  induction h with
  | refl => exact initialState_inv images extent
  | step hr ht ih => exact tick_inv ih ht

theorem frameBody_shape {t s' : LoopState} {inp : TickInput} {imageI : Nat}
    {acts : List Action} (h : frameBody t inp imageI = .ok (s', acts)) :
    ∃ slotFence prevSlot sw wActs,
      t.fences[imageI]? = some slotFence ∧
      t.fences[t.previousFenceI]? = some prevSlot ∧
      (∃ cb, t.commandBuffers[imageI]? = some cb) ∧
      waitOnSlot t imageI slotFence = (sw, wActs) ∧
      ((inp.execOk = true ∧
        (∃ fActs,
          settleFlush sw imageI
            (Future.execute ((previousFuture prevSlot).join (Future.acquired t.tick)) imageI)
            inp.flush = (s', fActs) ∧
          acts = wActs ++
            [Action.submit
              (Future.execute ((previousFuture prevSlot).join (Future.acquired t.tick)) imageI)
              imageI] ++ fActs)) ∨
       (inp.execOk = false ∧
        s' = { sw with windowResized := true, tick := sw.tick + 1 } ∧ acts = wActs)) := by
  rcases hF : t.fences[imageI]? with _ | slotFence
  · simp [frameBody, hF] at h
  · rcases hw : waitOnSlot t imageI slotFence with ⟨sw, wActs⟩
    have hwfields : sw.fences = t.fences ∧ sw.previousFenceI = t.previousFenceI ∧
        sw.commandBuffers = t.commandBuffers ∧ sw.tick = t.tick := by
      rcases slotFence <;> simp only [waitOnSlot] at hw <;>
        injection hw with e1 e2 <;> subst e1 <;> exact ⟨rfl, rfl, rfl, rfl⟩
    obtain ⟨hwf, hwp, hwc, hwt⟩ := hwfields
    rcases hP : t.fences[t.previousFenceI]? with _ | prevSlot
    · have hP' : sw.fences[sw.previousFenceI]? = none := by rw [hwf, hwp]; exact hP
      simp [frameBody, hF, hw, hP'] at h
    · have hP' : sw.fences[sw.previousFenceI]? = some prevSlot := by
        rw [hwf, hwp]; exact hP
      rcases hC : t.commandBuffers[imageI]? with _ | cb
      · have hC' : sw.commandBuffers[imageI]? = none := by rw [hwc]; exact hC
        simp [frameBody, hF, hw, hP', hC'] at h
      · have hC' : sw.commandBuffers[imageI]? = some cb := by rw [hwc]; exact hC
        rcases hE : inp.execOk
        case false =>
          simp [frameBody, hF, hw, hP', hC', hE] at h
          obtain ⟨hs, hacts⟩ := h
          exact ⟨slotFence, prevSlot, sw, wActs, rfl, rfl, ⟨cb, rfl⟩, hw,
            Or.inr ⟨rfl, hs.symm, hacts.symm⟩⟩
        case true =>
          rcases hsf : settleFlush sw imageI
              (Future.execute
                ((previousFuture prevSlot).join (Future.acquired sw.tick)) imageI)
              inp.flush with ⟨st, fActs⟩
          simp [frameBody, hF, hw, hP', hC', hE, hsf] at h
          obtain ⟨hs, hacts⟩ := h
          subst hs
          refine ⟨slotFence, prevSlot, sw, wActs, rfl, rfl, ⟨cb, rfl⟩, hw,
            Or.inl ⟨rfl, ⟨fActs, ?_, ?_⟩⟩⟩
          · rw [← hwt]
            exact hsf
          · rw [← hacts, hwt]
            simp

theorem waitOnSlot_gen {s sw : LoopState} {imageI : Nat}
    {slotFence : Option Future} {wActs : List Action}
    (hw : waitOnSlot s imageI slotFence = (sw, wActs)) :
    sw.swapchainExtent = s.swapchainExtent ∧ sw.swapchainImages = s.swapchainImages ∧
    sw.framebuffers = s.framebuffers ∧ sw.viewport = s.viewport ∧
    sw.commandBuffers = s.commandBuffers ∧ sw.fences = s.fences ∧
    sw.previousFenceI = s.previousFenceI ∧ sw.tick = s.tick ∧
    sw.windowResized = s.windowResized := by
  rcases slotFence <;> simp only [waitOnSlot] at hw <;> injection hw with e1 e2 <;>
    subst e1 <;> exact ⟨rfl, rfl, rfl, rfl, rfl, rfl, rfl, rfl, rfl⟩

theorem waitOnSlot_acts {s sw : LoopState} {imageI : Nat}
    {slotFence : Option Future} {wActs : List Action}
    (hw : waitOnSlot s imageI slotFence = (sw, wActs)) :
    (slotFence = none → wActs = []) ∧
    (∀ g, slotFence = some g → wActs = [Action.waitFence g]) := by
  rcases slotFence <;> simp only [waitOnSlot] at hw <;> injection hw with e1 e2 <;>
    subst e2 <;> constructor <;> intro <;> simp_all

theorem settleFlush_gen {t st : LoopState} {imageI : Nat} {submitted : Future}
    {flush : Option FlushError} {fActs : List Action}
    (hsf : settleFlush t imageI submitted flush = (st, fActs)) :
    st.swapchainExtent = t.swapchainExtent ∧ st.swapchainImages = t.swapchainImages ∧
    st.framebuffers = t.framebuffers ∧ st.viewport = t.viewport ∧
    st.commandBuffers = t.commandBuffers ∧ st.previousFenceI = imageI := by
  rcases flush with _ | e
  · simp only [settleFlush] at hsf
    injection hsf with e1 e2
    subst e1
    exact ⟨rfl, rfl, rfl, rfl, rfl, rfl⟩
  · rcases e <;> simp only [settleFlush] at hsf <;> injection hsf with e1 e2 <;>
      subst e1 <;> exact ⟨rfl, rfl, rfl, rfl, rfl, rfl⟩

theorem rebuildBlock_flag {s s1 : LoopState} {dims : Extent}
    {r : RecreateResponse} {acts1 : List Action}
    (h : rebuildBlock s dims r = .ok (s1, acts1)) :
    s1.windowResized = false := by
  by_cases hw : s.windowResized
  · rcases r with imgs | e
    · simp [rebuildBlock, recreate_swapchain, hw] at h
      obtain ⟨hs, -⟩ := h
      subst hs
      rfl
    · rcases e
      · simp [rebuildBlock, recreate_swapchain, hw] at h
        obtain ⟨hs, -⟩ := h
        subst hs
        rfl
      · simp [rebuildBlock, recreate_swapchain, hw] at h
  · simp [rebuildBlock, hw] at h
    obtain ⟨hs, -⟩ := h
    subst hs
    simpa using hw

theorem rebuildBlock_attempt {s s1 : LoopState} {dims : Extent}
    {r : RecreateResponse} {acts1 : List Action}
    (h : rebuildBlock s dims r = .ok (s1, acts1))
    (hw : s.windowResized = true) :
    Action.recreateAttempt ∈ acts1 := by
  rcases r with imgs | e
  · simp [rebuildBlock, recreate_swapchain, hw] at h
    simp [h.2.symm]
  · rcases e
    · simp [rebuildBlock, recreate_swapchain, hw] at h
      simp [h.2.symm]
    · simp [rebuildBlock, recreate_swapchain, hw] at h

theorem rebuildBlock_noflag {s : LoopState} {dims : Extent} {r : RecreateResponse}
    (hw : s.windowResized = false) :
    rebuildBlock s dims r = .ok (s, []) := by
  simp [rebuildBlock, hw]

theorem rebuildBlock_skip {s : LoopState} {dims : Extent}
    (hw : s.windowResized = true) :
    rebuildBlock s dims (.err .imageExtentNotSupported) =
      .ok ({ s with windowResized := false
                    viewport := dims
                    commandBuffers :=
                      get_command_buffers (get_pipeline dims) s.framebuffers },
           [Action.recreateAttempt, Action.recreateSkipped]) := by
  simp [rebuildBlock, recreate_swapchain, hw]

theorem rebuildBlock_done {s : LoopState} {dims : Extent} {imgs : List Image}
    (hw : s.windowResized = true) :
    rebuildBlock s dims (.ok imgs) =
      .ok ({ s with windowResized := false
                    swapchainExtent := dims
                    swapchainImages := imgs
                    framebuffers := get_frame_buffers imgs
                    viewport := dims
                    commandBuffers :=
                      get_command_buffers (get_pipeline dims) (get_frame_buffers imgs) },
           [Action.recreateAttempt, Action.recreateDone imgs]) := by
  simp [rebuildBlock, recreate_swapchain, hw]

theorem rebuildBlock_panic {s : LoopState} {dims : Extent}
    (hw : s.windowResized = true) :
    rebuildBlock s dims (.err .otherError) = .error "Failed to recreate swapchain" := by
  simp [rebuildBlock, recreate_swapchain, hw]

theorem eventStep_flag_mono {s : LoopState} {e : LoopEvent}
    (h : s.windowResized = true) : (eventStep s e).windowResized = true := by
  cases e <;> simp [eventStep, h]

theorem tick_ok_elim {s s' : LoopState} {inp : TickInput} {acts : List Action}
    (h : tick s inp = .ok (s', acts)) :
    ∃ s1 acts1 acts2,
      rebuildBlock (eventStep s inp.event) inp.innerSize inp.recreate = .ok (s1, acts1) ∧
      frameStep s1 inp = .ok (s', acts2) ∧ acts = acts1 ++ acts2 := by
  rcases hr : rebuildBlock (eventStep s inp.event) inp.innerSize inp.recreate
    with msg | ⟨s1, acts1⟩
  · simp [tick, hr] at h
  · rcases hf : frameStep s1 inp with msg | ⟨s2, acts2⟩
    · simp [tick, hr, hf] at h
    · simp [tick, hr, hf] at h
      exact ⟨s1, acts1, acts2, rfl, by rw [hf, h.1], h.2.symm⟩

theorem frameBody_shape_via {t s s' : LoopState} {inp : TickInput}
    {acts2 : List Action} {imageI : Nat}
    (hf : frameBody t inp imageI = .ok (s', acts2))
    (htf : t.fences = s.fences) (htp : t.previousFenceI = s.previousFenceI)
    (htt : t.tick = s.tick) :
    ∃ slotFence prevSlot sw wActs,
      s.fences[imageI]? = some slotFence ∧
      s.fences[s.previousFenceI]? = some prevSlot ∧
      sw.fences = s.fences ∧ sw.previousFenceI = s.previousFenceI ∧ sw.tick = s.tick ∧
      (slotFence = none → wActs = []) ∧
      (∀ g, slotFence = some g → wActs = [Action.waitFence g]) ∧
      ((inp.execOk = true ∧ ∃ fActs,
          settleFlush sw imageI
            (Future.execute ((previousFuture prevSlot).join (Future.acquired s.tick)) imageI)
            inp.flush = (s', fActs) ∧
          acts2 = wActs ++
            [Action.submit
              (Future.execute ((previousFuture prevSlot).join (Future.acquired s.tick)) imageI)
              imageI] ++ fActs) ∨
       (inp.execOk = false ∧
        s' = { sw with windowResized := true, tick := sw.tick + 1 } ∧ acts2 = wActs)) := by
  obtain ⟨slotFence, prevSlot, sw, wActs, hF, hP, -, hw, hbr⟩ := frameBody_shape hf
  obtain ⟨-, -, -, -, -, hwf, hwp, hwt, -⟩ := waitOnSlot_gen hw
  obtain ⟨hwn, hws⟩ := waitOnSlot_acts hw
  rw [htt] at hbr
  refine ⟨slotFence, prevSlot, sw, wActs, by rw [← htf]; exact hF,
    by rw [← htf, ← htp]; exact hP, by rw [hwf, htf], by rw [hwp, htp],
    by rw [hwt, htt], hwn, hws, hbr⟩

theorem tick_acquire_ok_elim {s s' : LoopState} {inp : TickInput} {acts : List Action}
    {imageI : Nat} {subopt : Bool}
    (h : tick s inp = .ok (s', acts)) (hA : inp.acquire = .ok imageI subopt) :
    ∃ s1 acts1 slotFence prevSlot sw wActs,
      rebuildBlock (eventStep s inp.event) inp.innerSize inp.recreate = .ok (s1, acts1) ∧
      s.fences[imageI]? = some slotFence ∧
      s.fences[s.previousFenceI]? = some prevSlot ∧
      sw.fences = s.fences ∧ sw.previousFenceI = s.previousFenceI ∧ sw.tick = s.tick ∧
      (slotFence = none → wActs = []) ∧
      (∀ g, slotFence = some g → wActs = [Action.waitFence g]) ∧
      ((inp.execOk = true ∧ ∃ fActs,
          settleFlush sw imageI
            (Future.execute ((previousFuture prevSlot).join (Future.acquired s.tick)) imageI)
            inp.flush = (s', fActs) ∧
          acts = acts1 ++ (wActs ++
            [Action.submit
              (Future.execute ((previousFuture prevSlot).join (Future.acquired s.tick)) imageI)
              imageI] ++ fActs)) ∨
       (inp.execOk = false ∧
        s' = { sw with windowResized := true, tick := sw.tick + 1 } ∧
        acts = acts1 ++ wActs)) := by
  obtain ⟨s1, acts1, acts2, hreb, hf, hacts⟩ := tick_ok_elim h
  obtain ⟨hg1, hg2, hg3, hg4⟩ := rebuildBlock_ghost hreb
  obtain ⟨he1, he2, he3, he4, -, -, -, -, -⟩ := eventStep_fields s inp.event
  have hs1f : s1.fences = s.fences := by rw [hg1, he1]
  have hs1p : s1.previousFenceI = s.previousFenceI := by rw [hg3, he3]
  have hs1t : s1.tick = s.tick := by rw [hg4, he4]
  rcases subopt
  case false =>
    simp [frameStep, hA] at hf
    obtain ⟨slotFence, prevSlot, sw, wActs, c1, c2, c3, c4, c5, c6, c7, c8⟩ :=
      frameBody_shape_via hf hs1f hs1p hs1t
    subst hacts
    refine ⟨s1, acts1, slotFence, prevSlot, sw, wActs, hreb, c1, c2, c3, c4, c5, c6, c7, ?_⟩
    rcases c8 with ⟨hE, fActs, hsf, hacts2⟩ | ⟨hE, hs, hacts2⟩
    · exact Or.inl ⟨hE, fActs, hsf, by rw [hacts2]⟩
    · exact Or.inr ⟨hE, hs, by rw [hacts2]⟩
  case true =>
    simp [frameStep, hA] at hf
    obtain ⟨slotFence, prevSlot, sw, wActs, c1, c2, c3, c4, c5, c6, c7, c8⟩ :=
      frameBody_shape_via (t := { s1 with windowResized := true }) hf hs1f hs1p hs1t
    subst hacts
    refine ⟨s1, acts1, slotFence, prevSlot, sw, wActs, hreb, c1, c2, c3, c4, c5, c6, c7, ?_⟩
    rcases c8 with ⟨hE, fActs, hsf, hacts2⟩ | ⟨hE, hs, hacts2⟩
    · exact Or.inl ⟨hE, fActs, hsf, by rw [hacts2]⟩
    · exact Or.inr ⟨hE, hs, by rw [hacts2]⟩

theorem settleFlush_acts {t st : LoopState} {imageI : Nat} {submitted : Future}
    {flush : Option FlushError} {fActs : List Action}
    (hsf : settleFlush t imageI submitted flush = (st, fActs)) :
    fActs = [Action.presentRequest imageI, Action.storeFence imageI] ∨
    fActs = [Action.presentRequest imageI] ∨
    fActs = [Action.presentRequest imageI, Action.log "Failed to flush future"] := by
  rcases flush with _ | e
  · simp only [settleFlush] at hsf
    injection hsf with e1 e2
    exact Or.inl e2.symm
  · rcases e
    · simp only [settleFlush] at hsf
      injection hsf with e1 e2
      exact Or.inr (Or.inl e2.symm)
    · simp only [settleFlush] at hsf
      injection hsf with e1 e2
      exact Or.inr (Or.inr e2.symm)

theorem frameBody_gen {t s' : LoopState} {inp : TickInput} {imageI : Nat}
    {acts : List Action} (h : frameBody t inp imageI = .ok (s', acts)) :
    s'.swapchainExtent = t.swapchainExtent ∧ s'.swapchainImages = t.swapchainImages ∧
    s'.framebuffers = t.framebuffers ∧ s'.viewport = t.viewport ∧
    s'.commandBuffers = t.commandBuffers := by
  obtain ⟨sf, ps, sw, wActs, hF, hP, -, hw, hbr⟩ := frameBody_shape h
  obtain ⟨w1, w2, w3, w4, w5, -, -, -, -⟩ := waitOnSlot_gen hw
  rcases hbr with ⟨-, fActs, hsf, -⟩ | ⟨-, hs, -⟩
  · obtain ⟨g1, g2, g3, g4, g5, -⟩ := settleFlush_gen hsf
    exact ⟨g1.trans w1, g2.trans w2, g3.trans w3, g4.trans w4, g5.trans w5⟩
  · subst hs
    exact ⟨w1, w2, w3, w4, w5⟩

theorem frameStep_gen {s s' : LoopState} {inp : TickInput} {acts : List Action}
    (h : frameStep s inp = .ok (s', acts)) :
    s'.swapchainExtent = s.swapchainExtent ∧ s'.swapchainImages = s.swapchainImages ∧
    s'.framebuffers = s.framebuffers ∧ s'.viewport = s.viewport ∧
    s'.commandBuffers = s.commandBuffers := by
  rcases hA : inp.acquire with ⟨imageI, subopt⟩ | _ | _
  · rcases subopt
    case false =>
      simp [frameStep, hA] at h
      exact frameBody_gen h
    case true =>
      simp [frameStep, hA] at h
      exact frameBody_gen (t := { s with windowResized := true }) h
  · simp [frameStep, hA] at h
    obtain ⟨hs, -⟩ := h
    subst hs
    exact ⟨rfl, rfl, rfl, rfl, rfl⟩
  · simp [frameStep, hA] at h
    obtain ⟨hs, -⟩ := h
    subst hs
    exact ⟨rfl, rfl, rfl, rfl, rfl⟩

/-- C10: on a recreation error other than `ImageExtentNotSupported`,
`recreate_swapchain` panics (modelled as `Except.error`) instead of
skipping; the unsupported-extent error is the only recoverable skip
(`Ok None`), and a successful recreation yields a new generation. -/
theorem C10_recreate_panic_policy (dims : Extent) :
    recreate_swapchain dims (.err .otherError) =
      .error "Failed to recreate swapchain" ∧
    recreate_swapchain dims (.err .imageExtentNotSupported) = .ok none ∧
    (∀ imgs, recreate_swapchain dims (.ok imgs) =
      .ok (some (⟨dims, imgs⟩, get_frame_buffers imgs))) :=
  ⟨rfl, rfl, fun _ => rfl⟩

/-- C7: when acquisition fails with "out of date", the Resize Flag is
raised and the iteration aborts with zero submissions; any next iteration
that completes runs the rebuild block (invokes `recreate_swapchain`). -/
theorem C7_out_of_date_aborts {s s' : LoopState} {inp : TickInput}
    {acts : List Action}
    (h : tick s inp = .ok (s', acts)) (hA : inp.acquire = .outOfDate) :
    s'.windowResized = true ∧
    (∀ f i, Action.submit f i ∉ acts) ∧
    (∀ inp' s'' acts'', tick s' inp' = .ok (s'', acts'') →
      Action.recreateAttempt ∈ acts'') := by
  obtain ⟨s1, acts1, acts2, hreb, hf, hacts⟩ := tick_ok_elim h
  simp [frameStep, hA] at hf
  obtain ⟨hs, hacts2⟩ := hf
  subst hacts
  refine ⟨by rw [← hs], ?_, ?_⟩
  · intro f i
    rcases rebuildBlock_acts hreb with h0 | ⟨imgs, h0⟩ | h0 <;> subst h0 <;>
      subst hacts2 <;> simp
  · intro inp' s'' acts'' ht
    obtain ⟨t1, a1, a2, hreb', hf', hacts'⟩ := tick_ok_elim ht
    subst hacts'
    have hflag : (eventStep s' inp'.event).windowResized = true :=
      eventStep_flag_mono (by rw [← hs])
    exact List.mem_append.mpr (Or.inl (rebuildBlock_attempt hreb' hflag))

/-- C6: when chaining/submission (`then_execute`) fails, the failure is
non-fatal, the Resize Flag is raised, the iteration aborts (no submit,
present or fence-store action), and `previous_fence_i` and the fences
vector are left unchanged. -/
theorem C6_chain_failure_aborts {s s' : LoopState} {inp : TickInput}
    {acts : List Action} {imageI : Nat} {subopt : Bool}
    (h : tick s inp = .ok (s', acts)) (hA : inp.acquire = .ok imageI subopt)
    (hE : inp.execOk = false) :
    s'.windowResized = true ∧ s'.previousFenceI = s.previousFenceI ∧
    s'.fences = s.fences ∧
    (∀ f i, Action.submit f i ∉ acts) ∧
    (∀ i, Action.presentRequest i ∉ acts) ∧
    (∀ i, Action.storeFence i ∉ acts) := by
  obtain ⟨s1, acts1, slotFence, prevSlot, sw, wActs, hreb, hsf, hsp,
    hswf, hswp, hswt, hwn, hws, hbr⟩ := tick_acquire_ok_elim h hA
  rcases hbr with ⟨hE', -⟩ | ⟨-, hs, hacts⟩
  · rw [hE] at hE'
    cases hE'
  · subst hs
    subst hacts
    have hwshape : wActs = [] ∨ ∃ g, wActs = [Action.waitFence g] := by
      rcases slotFence with _ | g
      · exact Or.inl (hwn rfl)
      · exact Or.inr ⟨g, hws g rfl⟩
    refine ⟨rfl, hswp, hswf, ?_, ?_, ?_⟩ <;>
      rcases rebuildBlock_acts hreb with h0 | ⟨imgs, h0⟩ | h0 <;>
        rcases hwshape with h1 | ⟨g, h1⟩ <;> subst h0 <;> subst h1 <;>
          intro i <;> simp

/-- C5: after a successful submission, the flush outcome is stored per
case: success stores the new Completion Signal in the acquired slot
(replacing any prior one); an out-of-date flush raises the Resize Flag and
stores no signal; any other flush failure stores no signal and logs a
diagnostic while the loop continues. -/
theorem C5_present_outcomes {s s' : LoopState} {inp : TickInput}
    {acts : List Action} {imageI : Nat} {subopt : Bool}
    (h : tick s inp = .ok (s', acts)) (hA : inp.acquire = .ok imageI subopt)
    (hE : inp.execOk = true) :
    ∃ prevSlot, s.fences[s.previousFenceI]? = some prevSlot ∧
      (inp.flush = none →
        s'.fences = s.fences.set imageI
          (some (Future.fenceSignalFuture (Future.present
            (Future.execute ((previousFuture prevSlot).join (Future.acquired s.tick)) imageI)
            imageI)))) ∧
      (inp.flush = some FlushError.outOfDate →
        s'.windowResized = true ∧ s'.fences = s.fences.set imageI none) ∧
      (inp.flush = some FlushError.otherError →
        s'.fences = s.fences.set imageI none ∧
        Action.log "Failed to flush future" ∈ acts) := by
  obtain ⟨s1, acts1, slotFence, prevSlot, sw, wActs, hreb, hsf, hsp,
    hswf, hswp, hswt, hwn, hws, hbr⟩ := tick_acquire_ok_elim h hA
  rcases hbr with ⟨-, fActs, hflush, hacts⟩ | ⟨hE', -⟩
  · refine ⟨prevSlot, hsp, ?_, ?_, ?_⟩
    · intro hfl
      rw [hfl] at hflush
      simp only [settleFlush] at hflush
      injection hflush with e1 e2
      subst e1
      show sw.fences.set imageI _ = _
      rw [hswf]
    · intro hfl
      rw [hfl] at hflush
      simp only [settleFlush] at hflush
      injection hflush with e1 e2
      subst e1
      exact ⟨rfl, by show sw.fences.set imageI none = _; rw [hswf]⟩
    · intro hfl
      rw [hfl] at hflush
      simp only [settleFlush] at hflush
      injection hflush with e1 e2
      subst e1
      refine ⟨by show sw.fences.set imageI none = _; rw [hswf], ?_⟩
      subst hacts
      subst e2
      simp
  · rw [hE] at hE'
    cases hE'

/-- C8: every submission is for the acquired image and its future is the
join of the previous slot's stored Completion Signal (or the resolved
baseline when the slot is empty) with this iteration's image-acquired
signal, executing the command buffer indexed by the acquired image. -/
theorem C8_dependency_chain {s s' : LoopState} {inp : TickInput}
    {acts : List Action} {imageI : Nat} {subopt : Bool} {f : Future} {j : Nat}
    (h : tick s inp = .ok (s', acts)) (hA : inp.acquire = .ok imageI subopt)
    (hmem : Action.submit f j ∈ acts) :
    j = imageI ∧
    ∃ prevSlot, s.fences[s.previousFenceI]? = some prevSlot ∧
      f = Future.execute ((previousFuture prevSlot).join (Future.acquired s.tick)) imageI := by
  obtain ⟨s1, acts1, slotFence, prevSlot, sw, wActs, hreb, hsf, hsp,
    hswf, hswp, hswt, hwn, hws, hbr⟩ := tick_acquire_ok_elim h hA
  have hwshape : wActs = [] ∨ ∃ g, wActs = [Action.waitFence g] := by
    rcases slotFence with _ | g
    · exact Or.inl (hwn rfl)
    · exact Or.inr ⟨g, hws g rfl⟩
  have hnot1 : Action.submit f j ∉ acts1 := by
    rcases rebuildBlock_acts hreb with h0 | ⟨imgs, h0⟩ | h0 <;> subst h0 <;> simp
  have hnotw : Action.submit f j ∉ wActs := by
    rcases hwshape with h1 | ⟨g, h1⟩ <;> subst h1 <;> simp
  rcases hbr with ⟨-, fActs, hflush, hacts⟩ | ⟨-, -, hacts⟩
  · subst hacts
    have hnotf : Action.submit f j ∉ fActs := by
      rcases settleFlush_acts hflush with h1 | h1 | h1 <;> subst h1 <;> simp
    rcases List.mem_append.mp hmem with h1 | h2
    · exact absurd h1 hnot1
    · rcases List.mem_append.mp h2 with h3 | h4
      · rcases List.mem_append.mp h3 with h5 | h6
        · exact absurd h5 hnotw
        · rcases List.mem_singleton.mp h6 with h7
          injection h7 with hf hj
          subst hf
          subst hj
          exact ⟨rfl, prevSlot, hsp, rfl⟩
      · exact absurd h4 hnotf
  · subst hacts
    rcases List.mem_append.mp hmem with h1 | h2
    · exact absurd h1 hnot1
    · exact absurd h2 hnotw

/-- C9: when the submission succeeds but the flush fails (with either
error), `previous_fence_i` is still advanced to the acquired index while
that slot's signal becomes absent, so the slot's next dependency chain
starts from the resolved baseline rather than a fence. -/
theorem C9_flush_failure_advances {s s' : LoopState} {inp : TickInput}
    {acts : List Action} {imageI : Nat} {subopt : Bool} {e : FlushError}
    (h : tick s inp = .ok (s', acts)) (hA : inp.acquire = .ok imageI subopt)
    (hE : inp.execOk = true) (hFl : inp.flush = some e) :
    s'.previousFenceI = imageI ∧ s'.fences = s.fences.set imageI none ∧
    (imageI < s.fences.length → s'.fences[s'.previousFenceI]? = some none) := by
  obtain ⟨s1, acts1, slotFence, prevSlot, sw, wActs, hreb, hsf, hsp,
    hswf, hswp, hswt, hwn, hws, hbr⟩ := tick_acquire_ok_elim h hA
  rcases hbr with ⟨-, fActs, hflush, hacts⟩ | ⟨hE', -⟩
  · rw [hFl] at hflush
    have main : s'.previousFenceI = imageI ∧ s'.fences = s.fences.set imageI none := by
      rcases e
      · simp only [settleFlush] at hflush
        injection hflush with e1 e2
        subst e1
        exact ⟨rfl, by show sw.fences.set imageI none = _; rw [hswf]⟩
      · simp only [settleFlush] at hflush
        injection hflush with e1 e2
        subst e1
        exact ⟨rfl, by show sw.fences.set imageI none = _; rw [hswf]⟩
    refine ⟨main.1, main.2, ?_⟩
    intro hlt
    rw [main.1, main.2]
    exact List.getElem?_set_eq_of_lt none hlt
  · rw [hE] at hE'
    cases hE'

theorem tick_gen_degenerate {s s' : LoopState} {inp : TickInput}
    {acts : List Action} (h : tick s inp = .ok (s', acts))
    (hrec : inp.recreate = .err .imageExtentNotSupported) :
    s'.swapchainExtent = s.swapchainExtent ∧
    s'.swapchainImages = s.swapchainImages ∧
    s'.framebuffers = s.framebuffers := by
  obtain ⟨s1, acts1, acts2, hreb, hf, -⟩ := tick_ok_elim h
  obtain ⟨g1, g2, g3, -, -⟩ := frameStep_gen hf
  obtain ⟨-, -, -, -, e5, e6, e7, -, -⟩ := eventStep_fields s inp.event
  rw [hrec] at hreb
  by_cases hw : (eventStep s inp.event).windowResized = true
  · rw [rebuildBlock_skip hw] at hreb
    injection hreb with hpair
    injection hpair with hp1 hp2
    subst hp1
    exact ⟨by rw [g1]; exact e5, by rw [g2]; exact e6, by rw [g3]; exact e7⟩
  · rw [rebuildBlock_noflag (by simpa using hw)] at hreb
    injection hreb with hpair
    injection hpair with hp1 hp2
    subst hp1
    exact ⟨by rw [g1]; exact e5, by rw [g2]; exact e6, by rw [g3]; exact e7⟩

/-- C4: back-pressure — in every reachable state at most one fenced
submission is in flight per frame slot, and any tick that submits for a
slot holding a live Completion Signal performs the wait on that signal
before the submission. -/
theorem C4_backpressure {images : List Image} {extent : Extent} {s : LoopState}
    (h : Reachable (initialState images extent) s) :
    (∀ i, s.inflight.getD i 0 ≤ 1) ∧
    (∀ inp s' acts f g i, tick s inp = .ok (s', acts) →
      Action.submit f i ∈ acts → s.fences.getD i none = some g →
      precedes (Action.waitFence g) (Action.submit f i) acts) := by
  refine ⟨(reachable_inv h).2.2.1, ?_⟩
  intro inp s' acts f g i ht hmem hg
  rcases hA : inp.acquire with ⟨imageI, subopt⟩ | _ | _
  · obtain ⟨s1, acts1, slotFence, prevSlot, sw, wActs, hreb, hsf, hsp,
      hswf, hswp, hswt, hwn, hws, hbr⟩ := tick_acquire_ok_elim ht hA
    have hnot1 : Action.submit f i ∉ acts1 := by
      rcases rebuildBlock_acts hreb with h0 | ⟨imgs, h0⟩ | h0 <;> subst h0 <;> simp
    have hnotw : Action.submit f i ∉ wActs := by
      rcases slotFence with _ | g0
      · rw [hwn rfl]
        simp
      · rw [hws g0 rfl]
        simp
    rcases hbr with ⟨-, fActs, hflush, hacts⟩ | ⟨-, -, hacts⟩
    · subst hacts
      have hnotf : Action.submit f i ∉ fActs := by
        rcases settleFlush_acts hflush with h1 | h1 | h1 <;> subst h1 <;> simp
      have hij : i = imageI ∧
          f = Future.execute
            ((previousFuture prevSlot).join (Future.acquired s.tick)) imageI := by
        rcases List.mem_append.mp hmem with h1 | h2
        · exact absurd h1 hnot1
        · rcases List.mem_append.mp h2 with h3 | h4
          · rcases List.mem_append.mp h3 with h5 | h6
            · exact absurd h5 hnotw
            · have h7 := List.mem_singleton.mp h6
              injection h7 with hf hj
              exact ⟨hj, hf⟩
          · exact absurd h4 hnotf
      obtain ⟨hieq, hfeq⟩ := hij
      subst hieq
      have hgd : s.fences.getD i none = slotFence := getD_of_getElem?_some none hsf
      rw [hgd] at hg
      refine ⟨acts1 ++ wActs,
        [Action.submit
          (Future.execute ((previousFuture prevSlot).join (Future.acquired s.tick)) i)
          i] ++ fActs, by simp, ?_, ?_⟩
      · rw [hws g hg]
        simp
      · rw [hfeq]
        simp
    · subst hacts
      rcases List.mem_append.mp hmem with h1 | h2
      · exact absurd h1 hnot1
      · exact absurd h2 hnotw
  · obtain ⟨s1, acts1, acts2, hreb, hf, hacts⟩ := tick_ok_elim ht
    simp [frameStep, hA] at hf
    subst hacts
    rw [hf.2] at hmem
    have hnot1 : Action.submit f i ∉ acts1 := by
      rcases rebuildBlock_acts hreb with h0 | ⟨imgs, h0⟩ | h0 <;> subst h0 <;> simp
    simp at hmem
    exact absurd hmem hnot1
  · obtain ⟨s1, acts1, acts2, hreb, hf, hacts⟩ := tick_ok_elim ht
    simp [frameStep, hA] at hf
    subst hacts
    rw [hf.2] at hmem
    have hnot1 : Action.submit f i ∉ acts1 := by
      rcases rebuildBlock_acts hreb with h0 | ⟨imgs, h0⟩ | h0 <;> subst h0 <;> simp
    simp at hmem
    exact absurd hmem hnot1

/-- C1 counterexample: a reachable rebuild to a three-image swapchain
leaves the fences vector at its initial two slots, so the number of
Completion Signal slots does not equal the current generation's image
count. -/
theorem C1_counterexample :
    ¬ (∀ s', Reachable demoInit s' →
        s'.fences.length = s'.swapchainImages.length) := by
  intro hall
  have hstep : tick demoInit growInput =
      .ok (demoGrown, stepActs demoInit growInput) := rfl
  have hcontra := hall demoGrown (Reachable.step Reachable.refl hstep)
  exact absurd hcontra (by decide)

/-- C1 amended: the Completion Signal slot count equals the INITIAL
swapchain's image count in every reachable state (the fences vector is
never resized and never reset by the rebuild block), while framebuffer and
command-buffer counts do track the current generation's image count. -/
theorem C1_fences_keep_initial_count {images : List Image} {extent : Extent}
    {s : LoopState} (h : Reachable (initialState images extent) s) :
    s.fences.length = images.length ∧
    s.framebuffers.length = s.swapchainImages.length ∧
    s.commandBuffers.length = s.framebuffers.length ∧
    (∀ dims r s1 acts1, rebuildBlock s dims r = .ok (s1, acts1) →
      s1.fences = s.fences) := by
  obtain ⟨h1, h2, h3, h4, h5, h6⟩ := reachable_inv h
  exact ⟨h1, h5, h6, fun dims r s1 acts1 hr => (rebuildBlock_ghost hr).1⟩

theorem C1_fences_keep_initial_count_witness :
    demoGrown.fences.length = 2 ∧
    demoGrown.framebuffers.length = demoGrown.swapchainImages.length ∧
    demoGrown.commandBuffers.length = demoGrown.framebuffers.length ∧
    (∀ dims r s1 acts1, rebuildBlock demoGrown dims r = .ok (s1, acts1) →
      s1.fences = demoGrown.fences) :=
  C1_fences_keep_initial_count
    (Reachable.step Reachable.refl
      (show tick demoInit growInput =
        .ok (demoGrown, stepActs demoInit growInput) from rfl))

/-- C2 counterexample: one degenerate (skipped) rebuild leaves the
swapchain, images and framebuffers intact but REPLACES the command
buffers (rebuilt against a pipeline with the degenerate viewport): the
previous generation is not left fully intact. -/
theorem C2_counterexample :
    stepActs demoInit degenerateInput =
      [Action.recreateAttempt, Action.recreateSkipped] ∧
    demoDegenerate.swapchainImages = demoInit.swapchainImages ∧
    demoDegenerate.framebuffers = demoInit.framebuffers ∧
    demoDegenerate.commandBuffers ≠ demoInit.commandBuffers := by
  refine ⟨rfl, rfl, rfl, ?_⟩
  decide

/-- C2 amended: while the driver reports the extent unsupported, every
rebuild request is skipped without panic and — for any number of repeated
requests — the swapchain, its images and the framebuffers stay exactly the
prior generation's; however each such request still rebuilds the viewport,
pipeline and command buffers against the old framebuffers using the
current (degenerate) dimensions, so the prior generation is not left fully
intact. -/
theorem C2_degenerate_skip :
    (∀ s dims, s.windowResized = true →
      rebuildBlock s dims (.err .imageExtentNotSupported) =
        .ok ({ s with windowResized := false
                      viewport := dims
                      commandBuffers :=
                        get_command_buffers (get_pipeline dims) s.framebuffers },
             [Action.recreateAttempt, Action.recreateSkipped])) ∧
    (∀ init s, DegenerateReach init s →
      s.swapchainExtent = init.swapchainExtent ∧
      s.swapchainImages = init.swapchainImages ∧
      s.framebuffers = init.framebuffers) := by
  constructor
  · intro s dims hw
    exact rebuildBlock_skip hw
  · intro init s h
    induction h with
    | refl => exact ⟨rfl, rfl, rfl⟩
    | step hr hrec ht ih =>
        obtain ⟨t1, t2, t3⟩ := tick_gen_degenerate ht hrec
        exact ⟨t1.trans ih.1, t2.trans ih.2.1, t3.trans ih.2.2⟩

theorem C2_degenerate_skip_witness :
    rebuildBlock demoFlagged ⟨0, 0⟩ (.err .imageExtentNotSupported) =
      .ok ({ demoFlagged with
               windowResized := false
               viewport := ⟨0, 0⟩
               commandBuffers :=
                 get_command_buffers (get_pipeline ⟨0, 0⟩) demoFlagged.framebuffers },
           [Action.recreateAttempt, Action.recreateSkipped]) ∧
    (demoDegenerate.swapchainExtent = demoInit.swapchainExtent ∧
     demoDegenerate.swapchainImages = demoInit.swapchainImages ∧
     demoDegenerate.framebuffers = demoInit.framebuffers) :=
  ⟨C2_degenerate_skip.1 demoFlagged ⟨0, 0⟩ rfl,
   C2_degenerate_skip.2 demoInit demoDegenerate
     (DegenerateReach.step DegenerateReach.refl
       (show degenerateInput.recreate = .err .imageExtentNotSupported from rfl)
       (show tick demoInit degenerateInput =
          .ok (demoDegenerate, stepActs demoInit degenerateInput) from rfl))⟩

/-- C3 counterexample: a concrete non-out-of-date acquisition failure
leaves the loop state completely unchanged: the tick succeeds, the Resize
Flag stays false, and no action — in particular no log — is emitted. -/
theorem C3_counterexample :
    tick demoInit acquireFailInput = .ok (demoInit, []) := rfl

/-- C3 amended: on an acquisition failure other than out-of-date the
iteration aborts with no submission and the loop continues, but the Resize
Flag is NOT raised (it is false after the tick) and nothing is logged (the
log/panic is commented out in the source); only the rebuild block's
effects remain. -/
theorem C3_other_acquire_failure {s s' : LoopState} {inp : TickInput}
    {acts : List Action}
    (h : tick s inp = .ok (s', acts)) (hA : inp.acquire = .otherError) :
    s'.windowResized = false ∧
    (∀ f i, Action.submit f i ∉ acts) ∧ (∀ m, Action.log m ∉ acts) ∧
    rebuildBlock (eventStep s inp.event) inp.innerSize inp.recreate =
      .ok (s', acts) := by
  obtain ⟨s1, acts1, acts2, hreb, hf, hacts⟩ := tick_ok_elim h
  simp [frameStep, hA] at hf
  obtain ⟨hs, hacts2⟩ := hf
  subst hs
  subst hacts2
  subst hacts
  rw [List.append_nil]
  refine ⟨rebuildBlock_flag hreb, ?_, ?_, hreb⟩
  · intro fu i
    rcases rebuildBlock_acts hreb with h0 | ⟨imgs, h0⟩ | h0 <;> subst h0 <;> simp
  · intro m
    rcases rebuildBlock_acts hreb with h0 | ⟨imgs, h0⟩ | h0 <;> subst h0 <;> simp

theorem C3_other_acquire_failure_witness :
    demoInit.windowResized = false ∧
    (∀ f i, Action.submit f i ∉ ([] : List Action)) ∧
    (∀ m, Action.log m ∉ ([] : List Action)) ∧
    rebuildBlock (eventStep demoInit acquireFailInput.event)
      acquireFailInput.innerSize acquireFailInput.recreate =
      .ok (demoInit, []) :=
  C3_other_acquire_failure
    (show tick demoInit acquireFailInput = .ok (demoInit, []) from rfl)
    (show acquireFailInput.acquire = .otherError from rfl)

theorem C4_backpressure_witness :
    (∀ i, demoS1.inflight.getD i 0 ≤ 1) ∧
    (∀ inp s' acts f g i, tick demoS1 inp = .ok (s', acts) →
      Action.submit f i ∈ acts → demoS1.fences.getD i none = some g →
      precedes (Action.waitFence g) (Action.submit f i) acts) :=
  C4_backpressure
    (Reachable.step Reachable.refl
      (show tick demoInit submitInput = .ok (demoS1, demoS1Acts) from rfl))

theorem C5_present_outcomes_witness :
    ∃ prevSlot, demoInit.fences[demoInit.previousFenceI]? = some prevSlot ∧
      (submitInput.flush = none →
        demoS1.fences = demoInit.fences.set 0
          (some (Future.fenceSignalFuture (Future.present
            (Future.execute
              ((previousFuture prevSlot).join (Future.acquired demoInit.tick)) 0)
            0)))) ∧
      (submitInput.flush = some FlushError.outOfDate →
        demoS1.windowResized = true ∧ demoS1.fences = demoInit.fences.set 0 none) ∧
      (submitInput.flush = some FlushError.otherError →
        demoS1.fences = demoInit.fences.set 0 none ∧
        Action.log "Failed to flush future" ∈ demoS1Acts) :=
  C5_present_outcomes
    (show tick demoInit submitInput = .ok (demoS1, demoS1Acts) from rfl)
    (show submitInput.acquire = .ok 0 false from rfl) rfl

theorem C6_chain_failure_aborts_witness :
    demoExecFail.windowResized = true ∧
    demoExecFail.previousFenceI = demoInit.previousFenceI ∧
    demoExecFail.fences = demoInit.fences ∧
    (∀ f i, Action.submit f i ∉ stepActs demoInit execFailInput) ∧
    (∀ i, Action.presentRequest i ∉ stepActs demoInit execFailInput) ∧
    (∀ i, Action.storeFence i ∉ stepActs demoInit execFailInput) :=
  C6_chain_failure_aborts
    (show tick demoInit execFailInput =
      .ok (demoExecFail, stepActs demoInit execFailInput) from rfl)
    (show execFailInput.acquire = .ok 0 false from rfl) rfl

theorem C7_out_of_date_aborts_witness :
    demoOutOfDate.windowResized = true ∧
    (∀ f i, Action.submit f i ∉ stepActs demoInit outOfDateInput) ∧
    (∀ inp' s'' acts'', tick demoOutOfDate inp' = .ok (s'', acts'') →
      Action.recreateAttempt ∈ acts'') :=
  C7_out_of_date_aborts
    (show tick demoInit outOfDateInput =
      .ok (demoOutOfDate, stepActs demoInit outOfDateInput) from rfl)
    (show outOfDateInput.acquire = .outOfDate from rfl)

theorem C8_dependency_chain_witness :
    0 = 0 ∧
    ∃ prevSlot, demoInit.fences[demoInit.previousFenceI]? = some prevSlot ∧
      Future.execute (Future.now.join (Future.acquired 0)) 0 =
        Future.execute
          ((previousFuture prevSlot).join (Future.acquired demoInit.tick)) 0 :=
  C8_dependency_chain
    (show tick demoInit submitInput = .ok (demoS1, demoS1Acts) from rfl)
    (show submitInput.acquire = .ok 0 false from rfl)
    (by decide)

theorem C9_flush_failure_advances_witness :
    demoFlushFail.previousFenceI = 0 ∧
    demoFlushFail.fences = demoInit.fences.set 0 none ∧
    (0 < demoInit.fences.length →
      demoFlushFail.fences[demoFlushFail.previousFenceI]? = some none) :=
  C9_flush_failure_advances
    (show tick demoInit flushFailInput =
      .ok (demoFlushFail, stepActs demoInit flushFailInput) from rfl)
    (show flushFailInput.acquire = .ok 0 false from rfl) rfl rfl

end Universes
